import Mathlib

set_option linter.unusedVariables false
set_option linter.unnecessarySimpa false

/-!
Verification of the sync reconciliation engine of the netsuite-supabase-sync
repository, shallowly embedded in Lean 4.

The embedding covers:
* the numeric coercion helpers `parseNumber` / `parseId` of
  `lambda-package/src/sync.js` (`processRecordsForTable`),
* the per-table record normalizer `processRecordsForTable`,
* the conflict-key selection (`getTableIdColumn` plus the detail-table
  override applied in both the paginated and the bulk paths),
* both `upsert` implementations (`lambda-package/src/supabase/client.js`
  and `src/supabase/client.js`) over an abstract store,
* `fetchAllSavedSearchPages` of `src/netsuite/client.js` over an abstract
  page sequence, and
* the run orchestration (`runSync` / `syncMapping`) of
  `lambda-package/src/sync.js` with the per-mapping sync bodies abstracted
  as `Except` outcomes.

JavaScript numbers are modelled as rationals, JS strings as `String`,
`null`/`undefined` as `Option.none`, thrown exceptions as `Except.error`
carrying the thrown message, and wall-clock time (`new Date().toISOString()`)
as an explicit `now : String` parameter.
-/

/-- Characters skipped by JS `parseFloat` / `parseInt` before parsing. -/
def isJsSpace (c : Char) : Bool := c = ' ' || c = '\t' || c = '\n' || c = '\r'

/-- Value of a list of decimal digit characters. -/
def digitsToNat (ds : List Char) : Nat := ds.foldl (fun a c => 10 * a + (c.toNat - 48)) 0

/-- Model of JS `parseFloat` on sign/decimal inputs (no exponent forms):
skip leading whitespace, optional sign, longest `digits[.digits]` run;
`none` models `NaN` (nothing numeric parsed). -/
def parseFloatChars (cs : List Char) : Option ℚ :=
  let cs1 := cs.dropWhile isJsSpace
  let signAndRest : Bool × List Char :=
    match cs1 with
    | '-' :: r => (true, r)
    | '+' :: r => (false, r)
    | _ => (false, cs1)
  let ip := signAndRest.2.takeWhile Char.isDigit
  let rest := signAndRest.2.dropWhile Char.isDigit
  let fp : List Char :=
    match rest with
    | '.' :: r => r.takeWhile Char.isDigit
    | _ => []
  if ip.isEmpty && fp.isEmpty then none
  else
    let mag : ℚ := mkRat (digitsToNat ip * 10 ^ fp.length + digitsToNat fp) (10 ^ fp.length)
    some (if signAndRest.1 then -mag else mag)

/-- Model of JS `parseInt(s, 10)`: skip leading whitespace, optional sign,
longest digit run; `none` models `NaN`. -/
def parseIntChars (cs : List Char) : Option Int :=
  let cs1 := cs.dropWhile isJsSpace
  let signAndRest : Int × List Char :=
    match cs1 with
    | '-' :: r => (-1, r)
    | '+' :: r => (1, r)
    | _ => (1, cs1)
  let ds := signAndRest.2.takeWhile Char.isDigit
  if ds.isEmpty then none else some (signAndRest.1 * (digitsToNat ds : Int))

/-- JS `x || null` applied to a number-or-NaN (`none` = NaN): `0` and `NaN`
are falsy, so both collapse to `null`. -/
def orNullNum : Option ℚ → Option ℚ
  | none => none
  | some q => if q = 0 then none else some q

/-- JS `x || null` applied to an integer-or-NaN. -/
def orNullInt : Option Int → Option Int
  | none => none
  | some i => if i = 0 then none else some i

namespace SyncManager

/-- `parseNumber` of `processRecordsForTable` (lambda-package/src/sync.js):
`if (!value) return null; return parseFloat(String(value).replace(/,/g, '')) || null;`.
The argument is the raw field value (`none` = null/absent). -/
def parseNumber (value : Option String) : Option ℚ :=
  match value with
  | none => none
  | some s =>
      if s = "" then none
      else orNullNum (parseFloatChars (s.toList.filter (fun c => c ≠ ',')))

/-- `parseId` of `processRecordsForTable` (lambda-package/src/sync.js):
`if (!value) return null; return parseInt(String(value), 10) || null;`. -/
def parseId (value : Option String) : Option Int :=
  match value with
  | none => none
  | some s =>
      if s = "" then none
      else orNullInt (parseIntChars s.toList)

end SyncManager

/-- A JavaScript value appearing in a processed (typed) row. -/
inductive JsValue where
  | vnull
  | vint (i : Int)
  | vnum (q : ℚ)
  | vstr (s : String)
deriving DecidableEq, Repr

/-- A processed row: a JS object modelled as an insertion-ordered
association list from field name to value. -/
abbrev TypedRow := List (String × JsValue)

/-- A raw NetSuite row: a JS object whose values are strings.  `get`
returns `none` for a null or absent field; `keys` is `Object.keys`. -/
structure RawRow where
  keys : List String
  get : String → Option String

/-- `List.map` with the element index, as JS `array.map((x, index) => ...)`. -/
def mapWithIndex (f : Nat → α → β) : Nat → List α → List β
  | _, [] => []
  | n, a :: as => f n a :: mapWithIndex f (n + 1) as

/-- JS `s.includes(t)` on lists of characters. -/
def listIncludes (t : List Char) : List Char → Bool
  | [] => t.isEmpty
  | c :: cs => t.isPrefixOf (c :: cs) || listIncludes t cs

/-- JS `s.includes(t)`. -/
def strIncludes (s t : String) : Bool := listIncludes t.toList s.toList

/-- JS falsiness of a value. -/
def jsFalsy : JsValue → Bool
  | .vnull => true
  | .vint i => i == 0
  | .vnum q => q == 0
  | .vstr s => s == ""

/-- JS property assignment `obj[k] = v`: overwrite in place if the key
exists, else append. -/
def setField : TypedRow → String → JsValue → TypedRow
  | [], k, v => [(k, v)]
  | (k', v') :: rest, k, v =>
      if k' = k then (k, v) :: rest else (k', v') :: setField rest k v

/-- JS `record[k] || ''` (empty-string default for null/absent/empty). -/
def strOrEmpty (v : Option String) : JsValue := .vstr (v.getD "")

/-- JS `record[k] || null` on a string field (empty string collapses to null). -/
def dateOrNull (v : Option String) : JsValue :=
  match v with
  | some s => if s = "" then .vnull else .vstr s
  | none => .vnull

/-- JS `a || b` on two string-or-null values. -/
def jsOrStr (a b : Option String) : Option String :=
  match a with
  | some s => if s = "" then b else some s
  | none => b

/-- Wrap an optional integer as a JS value (`null` when absent). -/
def intOrNull : Option Int → JsValue
  | some i => .vint i
  | none => .vnull

/-- Wrap an optional number as a JS value (`null` when absent). -/
def numOrNull : Option ℚ → JsValue
  | some q => .vnum q
  | none => .vnull

namespace SyncManager

/-- JS `parseId(record[k]) || index + 1`.  `parseId` never returns `0`
(its own `|| null` collapses `0` to null), so `||` here fires exactly on
null, i.e. `getD`. -/
def idOrIndex (v : Option String) (idx : Nat) : JsValue :=
  .vint ((parseId v).getD (Int.ofNat (idx + 1)))

/-- The synthetic-`pkey` expression shared by the three detail tables:
`parseId(record['pkey']) || `${parseId(record[parent]) || index + 1}_${parseId(record['line_id']) || index + 1}``. -/
def detailPkey (r : RawRow) (parentField : String) (idx : Nat) : JsValue :=
  match parseId (r.get "pkey") with
  | some i => .vint i
  | none =>
      .vstr (toString ((parseId (r.get parentField)).getD (Int.ofNat (idx + 1))) ++ "_" ++
        toString ((parseId (r.get "line_id")).getD (Int.ofNat (idx + 1))))

/-- One record of the generic (default) branch of `processRecordsForTable`:
coerce each raw field by field-name heuristics, synthesize `id` when no
identifier-like field exists, then set `timestamp`. -/
def genericCoerce (key : String) (value : Option String) : JsValue :=
  if strIncludes key "internal_id" || strIncludes key "_id" || key = "id" then
    intOrNull (parseId value)
  else if strIncludes key "amount" || strIncludes key "price" || strIncludes key "total" then
    numOrNull (parseNumber value)
  else if strIncludes key "date" then dateOrNull value
  else strOrEmpty value

/-- The default-branch record builder of `processRecordsForTable`. -/
def genericRow (now : String) (idx : Nat) (r : RawRow) : TypedRow :=
  let base := r.keys.foldl (fun acc key => setField acc key (genericCoerce key (r.get key))) []
  let withId :=
    if (match base.lookup "id" with | some v => jsFalsy v | none => true) &&
        !(base.any (fun p => strIncludes p.1 "internal_id")) then
      setField base "id" (JsValue.vint (Int.ofNat (idx + 1)))
    else base
  setField withId "timestamp" (JsValue.vstr now)

/-- `processRecordsForTable(table, rawRecords)` of
`lambda-package/src/sync.js`.  `new Date().toISOString()` is modelled by
the explicit parameter `now`.  The source's early return on an
empty/absent record list is omitted: mapping an empty list already
yields `[]`. -/
def processRecordsForTable (table : String) (now : String) (rawRecords : List RawRow) :
    List TypedRow :=
  match table with
  | "cash_sales" => mapWithIndex (fun idx r =>
      [("cash_sale_internal_id", idOrIndex (r.get "cash_sale_internal_id") idx),
       ("date", dateOrNull (r.get "date")),
       ("document_number", strOrEmpty (r.get "document_number")),
       ("po_number", strOrEmpty (r.get "po_number")),
       ("nuorder_order_number", strOrEmpty (r.get "nuorder_order_number")),
       ("created_from", strOrEmpty (r.get "created_from")),
       ("name", strOrEmpty (r.get "name")),
       ("amount", numOrNull (parseNumber (r.get "amount"))),
       ("status", strOrEmpty (r.get "status")),
       ("customer_internal_id", intOrNull (parseId (r.get "customer_internal_id"))),
       ("sales_order_internal_id", intOrNull (parseId (r.get "sales_order_internal_id"))),
       ("partner_internal_id", intOrNull (parseId (r.get "partner_internal_id"))),
       ("timestamp", JsValue.vstr now)]) 0 rawRecords
  | "credit_memos" => mapWithIndex (fun idx r =>
      [("credit_memo_internal_id", idOrIndex (r.get "credit_memo_internal_id") idx),
       ("date", dateOrNull (r.get "date")),
       ("document_number", strOrEmpty (r.get "document_number")),
       ("po_number", strOrEmpty (r.get "po_number")),
       ("nuorder_order_number", strOrEmpty (r.get "nuorder_order_number")),
       ("created_from", strOrEmpty (r.get "created_from")),
       ("name", strOrEmpty (r.get "name")),
       ("amount", numOrNull (parseNumber (r.get "amount"))),
       ("status", strOrEmpty (r.get "status")),
       ("customer_internal_id", intOrNull (parseId (r.get "customer_internal_id"))),
       ("sales_order_internal_id", strOrEmpty (r.get "sales_order_internal_id")),
       ("partner_internal_id", intOrNull (parseId (r.get "partner_internal_id"))),
       ("timestamp", JsValue.vstr now)]) 0 rawRecords
  | "customers" => mapWithIndex (fun idx r =>
      [("customer_internal_id", idOrIndex (r.get "customer_internal_id") idx),
       ("number", intOrNull (parseId (r.get "number"))),
       ("company_name", strOrEmpty (r.get "company_name")),
       ("terms", strOrEmpty (r.get "terms")),
       ("partner", strOrEmpty (r.get "partner")),
       ("wholesale_customer_segment", strOrEmpty (r.get "wholesale_customer_segment")),
       ("price_level", strOrEmpty (r.get "price_level")),
       ("account_rating", strOrEmpty (r.get "account_rating")),
       ("email", strOrEmpty (r.get "email")),
       ("phone", strOrEmpty (r.get "phone")),
       ("default_billing_address", strOrEmpty (r.get "default_billing_address")),
       ("default_shipping_address", strOrEmpty (r.get "default_shipping_address")),
       ("tw_email_of_primary_contact", strOrEmpty (r.get "tw_email_of_primary_contact")),
       ("tw_email_of_billing_contact", strOrEmpty (r.get "tw_email_of_billing_contact")),
       ("tw_email_of_billing_contact_2", strOrEmpty (r.get "tw_email_of_billing_contact_2")),
       ("primary_currency", strOrEmpty (r.get "primary_currency")),
       ("hold_orders_for_cc_info", strOrEmpty (r.get "hold_orders_for_cc_info")),
       ("ar_red_flag", strOrEmpty (r.get "ar_red_flag")),
       ("partner_internal_id", intOrNull (parseId (r.get "partner_internal_id"))),
       ("timestamp", JsValue.vstr now)]) 0 rawRecords
  | "invoices" => mapWithIndex (fun idx r =>
      [("invoice_internal_id", idOrIndex (r.get "invoice_internal_id") idx),
       ("date", dateOrNull (r.get "date")),
       ("document_number", strOrEmpty (r.get "document_number")),
       ("po_number", strOrEmpty (r.get "po_number")),
       ("nuorder_order_number", strOrEmpty (r.get "nuorder_order_number")),
       ("created_from", strOrEmpty (r.get "created_from")),
       ("name", strOrEmpty (r.get "name")),
       ("amount", numOrNull (parseNumber (r.get "amount"))),
       ("status", strOrEmpty (r.get "status")),
       ("customer_internal_id", intOrNull (parseId (r.get "customer_internal_id"))),
       ("sales_order_internal_id", intOrNull (parseId (r.get "sales_order_internal_id"))),
       ("payment_link", strOrEmpty (r.get "payment_link")),
       ("partner_internal_id", intOrNull (parseId (r.get "partner_internal_id"))),
       ("timestamp", JsValue.vstr now),
       ("due_date", dateOrNull (r.get "due_date"))]) 0 rawRecords
  | "invoices_detailed" => mapWithIndex (fun idx r =>
      [("invoice_internal_id", intOrNull (parseId (r.get "invoice_internal_id"))),
       ("date", dateOrNull (r.get "date")),
       ("document_number", strOrEmpty (r.get "document_number")),
       ("po_number", strOrEmpty (r.get "po_number")),
       ("nuorder_order_number", strOrEmpty (r.get "nuorder_order_number")),
       ("name", strOrEmpty (r.get "name")),
       ("status", strOrEmpty (r.get "status")),
       ("item_name", strOrEmpty (r.get "item_name")),
       ("design", strOrEmpty (r.get "design")),
       ("class", strOrEmpty (r.get "class")),
       ("upc_code", strOrEmpty (r.get "upc_code")),
       ("quantity", intOrNull (parseId (r.get "quantity"))),
       ("amount", numOrNull (parseNumber (r.get "amount"))),
       ("customer_internal_id", intOrNull (parseId (r.get "customer_internal_id"))),
       ("sales_order_number", strOrEmpty (jsOrStr (r.get "sales_order_number") (r.get "created_from"))),
       ("sales_order_internal_id", intOrNull (parseId (r.get "sales_order_internal_id"))),
       ("pkey", detailPkey r "invoice_internal_id" idx),
       ("sku", strOrEmpty (r.get "sku")),
       ("timestamp", JsValue.vstr now)]) 0 rawRecords
  | "item_fulfillments" => mapWithIndex (fun idx r =>
      [("item_fulfillment_internal_id", idOrIndex (r.get "item_fulfillment_internal_id") idx),
       ("date", dateOrNull (r.get "date")),
       ("document_number", strOrEmpty (r.get "document_number")),
       ("created_from", strOrEmpty (r.get "created_from")),
       ("nuorder_order_number", strOrEmpty (r.get "nuorder_order_number")),
       ("po_check_number", strOrEmpty (r.get "po_check_number")),
       ("name", strOrEmpty (r.get "name")),
       ("amount", numOrNull (parseNumber (r.get "amount"))),
       ("status", strOrEmpty (r.get "status")),
       ("tracking_numbers", strOrEmpty (r.get "tracking_numbers")),
       ("sales_order_internal_id", intOrNull (parseId (r.get "sales_order_internal_id"))),
       ("customer_internal_id", intOrNull (parseId (r.get "customer_internal_id"))),
       ("timestamp", JsValue.vstr now)]) 0 rawRecords
  | "item_fulfillments_detailed" => mapWithIndex (fun idx r =>
      [("item_fulfillment_internal_id", intOrNull (parseId (r.get "item_fulfillment_internal_id"))),
       ("date", dateOrNull (r.get "date")),
       ("document_number", strOrEmpty (r.get "document_number")),
       ("name", strOrEmpty (r.get "name")),
       ("status", strOrEmpty (r.get "status")),
       ("item_name", strOrEmpty (r.get "item_name")),
       ("design", strOrEmpty (r.get "design")),
       ("class", strOrEmpty (r.get "class")),
       ("upc_code", strOrEmpty (r.get "upc_code")),
       ("quantity", intOrNull (parseId (r.get "quantity"))),
       ("pkey", detailPkey r "item_fulfillment_internal_id" idx),
       ("sku", strOrEmpty (r.get "sku")),
       ("customer_internal_id", intOrNull (parseId (r.get "customer_internal_id"))),
       ("timestamp", JsValue.vstr now)]) 0 rawRecords
  | "partners" => mapWithIndex (fun idx r =>
      [("partner_internal_id", idOrIndex (r.get "partner_internal_id") idx),
       ("name", strOrEmpty (r.get "name")),
       ("email", strOrEmpty (r.get "email")),
       ("phone", strOrEmpty (r.get "phone")),
       ("office_phone", strOrEmpty (r.get "office_phone")),
       ("fax", strOrEmpty (r.get "fax")),
       ("code", strOrEmpty (r.get "code")),
       ("alt_email", strOrEmpty (r.get "alt_email")),
       ("timestamp", JsValue.vstr now)]) 0 rawRecords
  | "sales_orders" => mapWithIndex (fun idx r =>
      [("sales_order_internal_id", idOrIndex (r.get "sales_order_internal_id") idx),
       ("date", dateOrNull (r.get "date")),
       ("document_number", strOrEmpty (r.get "document_number")),
       ("po_number", strOrEmpty (r.get "po_number")),
       ("nuorder_order_number", strOrEmpty (r.get "nuorder_order_number")),
       ("customer_name", strOrEmpty (jsOrStr (r.get "customer_name") (r.get "name"))),
       ("amount", numOrNull (parseNumber (r.get "amount"))),
       ("status", strOrEmpty (r.get "status")),
       ("customer_internal_id", intOrNull (parseId (r.get "customer_internal_id"))),
       ("ship_date", dateOrNull (r.get "ship_date")),
       ("ship_date_end", dateOrNull (r.get "ship_date_end")),
       ("partner_internal_id", intOrNull (parseId (r.get "partner_internal_id"))),
       ("timestamp", JsValue.vstr now)]) 0 rawRecords
  | "sales_orders_detailed" => mapWithIndex (fun idx r =>
      [("sales_order_internal_id", intOrNull (parseId (r.get "sales_order_internal_id"))),
       ("date", dateOrNull (r.get "date")),
       ("document_number", strOrEmpty (r.get "document_number")),
       ("po_number", strOrEmpty (r.get "po_number")),
       ("nuorder_order_number", strOrEmpty (r.get "nuorder_order_number")),
       ("customer_name", strOrEmpty (jsOrStr (r.get "customer_name") (r.get "name"))),
       ("status", strOrEmpty (r.get "status")),
       ("item_name", strOrEmpty (r.get "item_name")),
       ("design", strOrEmpty (r.get "design")),
       ("class", strOrEmpty (r.get "class")),
       ("upc_code", strOrEmpty (r.get "upc_code")),
       ("quantity", intOrNull (parseId (r.get "quantity"))),
       ("amount", numOrNull (parseNumber (r.get "amount"))),
       ("line_id", intOrNull (parseId (r.get "line_id"))),
       ("customer_internal_id", intOrNull (parseId (r.get "customer_internal_id"))),
       ("pkey", detailPkey r "sales_order_internal_id" idx),
       ("sku", strOrEmpty (r.get "sku")),
       ("timestamp", JsValue.vstr now)]) 0 rawRecords
  | "forecast" => mapWithIndex (fun idx r =>
      [("month", dateOrNull (r.get "month")),
       ("partner", strOrEmpty (jsOrStr (r.get "sales_rep") (r.get "partner"))),
       ("forecasted_amount", numOrNull (parseNumber (r.get "forecasted_amount"))),
       ("partner_internal_id", intOrNull (parseId (jsOrStr (r.get "partner_internal_id") (r.get "partner_id")))),
       ("pkey", JsValue.vint ((parseId (r.get "pkey")).getD (Int.ofNat (idx + 1))))]) 0 rawRecords
  | _ => mapWithIndex (genericRow now) 0 rawRecords

/-- `getTableIdColumn(table)` of `lambda-package/src/sync.js`: the static
table-to-identifier-column lookup, `'id'` as default fallback. -/
def getTableIdColumn (table : String) : String :=
  match table with
  | "cash_sales" => "cash_sale_internal_id"
  | "credit_memos" => "credit_memo_internal_id"
  | "customers" => "customer_internal_id"
  | "invoices" => "invoice_internal_id"
  | "invoices_detailed" => "invoice_internal_id"
  | "item_fulfillments" => "item_fulfillment_internal_id"
  | "item_fulfillments_detailed" => "item_fulfillment_internal_id"
  | "partners" => "partner_internal_id"
  | "sales_orders" => "sales_order_internal_id"
  | "sales_orders_detailed" => "sales_order_internal_id"
  | "forecast" => "pkey"
  | _ => "id"

/-- Conflict-key choice of the bulk path (`syncMapping`):
`let conflictKey = this.getTableIdColumn(table)` overridden to `"pkey"`
for the three detail tables. -/
def conflictKeyBulk (table : String) : String :=
  if table = "sales_orders_detailed" || table = "invoices_detailed" ||
      table = "item_fulfillments_detailed" then "pkey"
  else getTableIdColumn table

/-- Conflict-key choice of the paginated path (`syncMappingWithPagination`),
transcribed from its own copy of the same logic. -/
def conflictKeyPaginated (table : String) : String :=
  if table = "sales_orders_detailed" || table = "invoices_detailed" ||
      table = "item_fulfillments_detailed" then "pkey"
  else getTableIdColumn table

/-- `PAGINATED_TABLES` membership (`requiresPagination` of
`lambda-package/src/sync.js`). -/
def requiresPagination (table : String) : Bool :=
  table = "invoices_detailed" || table = "item_fulfillments_detailed" ||
    table = "sales_orders_detailed"

end SyncManager

/-! ## Destination writer (`upsert`), both implementations

The store client (`this.client.from(table).upsert(chunk, ...)`) is
abstracted as a function from the 0-based index of the call and the chunk
to the `{data, error}` outcome of that call. -/

/-- The `error` object of a store reply. -/
structure StoreError where
  message : String
  details : Option String
deriving DecidableEq, Repr

/-- The upsert chunk loop of both clients: `for (const chunk of chunks)`
issue one store call per chunk; on the first `{error}` reply throw the
message `wrap error` and stop; otherwise accumulate the returned data. -/
structure ChunkRun (ρ : Type) where
  calls : List (List ρ)
  committed : List (List ρ)
  results : List ρ
  thrown : Option String
deriving DecidableEq, Repr

def runChunks (store : Nat → List ρ → Except StoreError (List ρ)) (wrap : StoreError → String) :
    List (List ρ) → Nat → ChunkRun ρ
  | [], _ => ⟨[], [], [], none⟩
  | c :: rest, n =>
      match store n c with
      | .error e => ⟨[c], [], [], some (wrap e)⟩
      | .ok d =>
          let r := runChunks store wrap rest (n + 1)
          ⟨c :: r.calls, c :: r.committed, d ++ r.results, r.thrown⟩

/-- `records.slice(i, i + 500)` chunking of both clients:
`for (let i = 0; i < records.length; i += chunkSize) chunks.push(...)`. -/
def chunksOf (l : List α) : List (List α) :=
  if h : l.isEmpty then [] else l.take 500 :: chunksOf (l.drop 500)
termination_by l.length
decreasing_by
  simp only [List.length_drop]
  exact Nat.sub_lt (List.length_pos.mpr (by simpa [List.isEmpty_iff] using h)) (by decide)

/-- The `records` argument of `upsert` as seen by `Array.isArray`. -/
inductive UpsertArg (ρ : Type) where
  | arr (rows : List ρ)
  | notArray
deriving DecidableEq, Repr

/-- What a completed `upsert` returns: `{count: 0}` on the lambda client's
empty-records early return, or `{recordsProcessed, resultsReturned}`. -/
inductive UpsertOutcome where
  | emptyCount
  | completed (recordsProcessed resultsReturned : Nat)
deriving DecidableEq, Repr

/-- Trace of one `upsert` call: store calls issued, chunks committed, and
the returned value or thrown message. -/
structure UpsertRun (ρ : Type) where
  calls : List (List ρ)
  committed : List (List ρ)
  result : Except String UpsertOutcome
deriving Repr

namespace LambdaClient

/-- `_isValidTableName` of `lambda-package/src/supabase/client.js`:
non-empty string matching `^[a-zA-Z0-9_-]+$`. -/
def isValidTableName (s : String) : Bool :=
  s ≠ "" && s.toList.all (fun c => c.isAlpha || c.isDigit || c = '_' || c = '-')

/-- The conflict-column pattern `^[a-zA-Z0-9_\- ]+$` of the same file. -/
def isValidConflictColumn (s : String) : Bool :=
  s ≠ "" && s.toList.all (fun c => c.isAlpha || c.isDigit || c = '_' || c = '-' || c = ' ')

/-- Message thrown at a failing chunk (lambda client):
`Supabase upsert error: ${error.message}`. -/
def wrapChunkError (e : StoreError) : String := "Supabase upsert error: " ++ e.message

/-- `upsert(table, records, onConflict)` of
`lambda-package/src/supabase/client.js`: validate the table name, require
an array, return `{count: 0}` on an empty array, validate a truthy
`onConflict`, then chunk and write; the catch block rewraps a chunk
failure as `Failed to upsert to table ${table}: ...`. -/
def upsert (store : Nat → List ρ → Except StoreError (List ρ)) (table : String)
    (records : UpsertArg ρ) (onConflict : String) : UpsertRun ρ :=
  if !isValidTableName table then ⟨[], [], .error "Invalid table name format"⟩
  else
    match records with
    | .notArray => ⟨[], [], .error "Records must be an array"⟩
    | .arr rows =>
        if rows.isEmpty then ⟨[], [], .ok .emptyCount⟩
        else if onConflict ≠ "" && !isValidConflictColumn onConflict then
          ⟨[], [], .error "Invalid conflict column format"⟩
        else
          let run := runChunks store wrapChunkError (chunksOf rows) 0
          match run.thrown with
          | some msg =>
              ⟨run.calls, run.committed,
                .error ("Failed to upsert to table " ++ table ++ ": " ++ msg)⟩
          | none =>
              ⟨run.calls, run.committed, .ok (.completed rows.length run.results.length)⟩

end LambdaClient

namespace SrcClient

/-- Message thrown at a failing chunk (src client):
`Supabase upsert error: ${error.message} (details: ${error.details || 'none'})`. -/
def wrapChunkError (e : StoreError) : String :=
  "Supabase upsert error: " ++ e.message ++ " (details: " ++
    ((jsOrStr e.details (some "none")).getD "none") ++ ")"

/-- `upsert(table, records, onConflict)` of `src/supabase/client.js`: no
table-name or conflict-column validation; a non-array or empty `records`
throws; then the same chunk loop as the lambda client. -/
def upsert (store : Nat → List ρ → Except StoreError (List ρ)) (table : String)
    (records : UpsertArg ρ) (onConflict : String) : UpsertRun ρ :=
  match records with
  | .notArray => ⟨[], [], .error "No records provided for upsert"⟩
  | .arr rows =>
      if rows.isEmpty then ⟨[], [], .error "No records provided for upsert"⟩
      else
        let run := runChunks store wrapChunkError (chunksOf rows) 0
        match run.thrown with
        | some msg =>
            ⟨run.calls, run.committed,
              .error ("Failed to upsert to table " ++ table ++ ": " ++ msg)⟩
        | none =>
            ⟨run.calls, run.committed, .ok (.completed rows.length run.results.length)⟩

end SrcClient

/-! ## Source reader (`fetchAllSavedSearchPages` of `src/netsuite/client.js`)

The remote is abstracted as a function from the 0-based page index to the
parsed page `{data, hasMore}`.  The loop `while (hasMore)` need not
terminate, so the model takes a fuel bound; `none` models
non-termination within the bound.  The returned pair is
(accumulated `allResults`, list of requested page indices in order). -/

structure NsPage (ρ : Type) where
  data : List ρ
  hasMore : Bool

namespace NetSuiteClient

def fetchAllGo (pages : Nat → NsPage ρ) : Nat → Nat → List ρ → List Nat →
    Option (List ρ × List Nat)
  | 0, _, _, _ => none
  | fuel + 1, page, acc, reqs =>
      let p := pages page
      let acc2 := acc ++ p.data
      let reqs2 := reqs ++ [page]
      if p.hasMore then fetchAllGo pages fuel (page + 1) acc2 reqs2
      else some (acc2, reqs2)

/-- `fetchAllSavedSearchPages(searchId)`: `let page = 0; let hasMore =
true; while (hasMore) { fetch page; accumulate data; hasMore =
parsed.hasMore; page++ }`. -/
def fetchAllSavedSearchPages (pages : Nat → NsPage ρ) (fuel : Nat) :
    Option (List ρ × List Nat) :=
  fetchAllGo pages fuel 0 [] []

end NetSuiteClient

/-! ## Run orchestration (`runSync` / `syncMapping` of
`lambda-package/src/sync.js`)

Each mapping's try-block body (count, fetch, normalize, upsert) performs
I/O, so it is abstracted as an `Except String Unit` outcome supplied per
mapping: `.error e` models an exception with message `e` thrown anywhere
inside the mapping's sync path. -/

namespace SyncManager

/-- One entry of `config.mappings`. -/
structure Mapping where
  searchId : String
  table : String
  name : String
  type : String
deriving DecidableEq, Repr

/-- One entry of `syncStats.errors`, as pushed by `logError`. -/
structure SyncErrorEntry where
  message : String
  error : String
  timestamp : String
deriving DecidableEq, Repr

/-- `this.syncStats`. -/
structure SyncStats where
  startTime : Option String
  endTime : Option String
  totalMappings : Nat
  successfulSyncs : Nat
  failedSyncs : Nat
  errors : List SyncErrorEntry
deriving DecidableEq, Repr

/-- `logError(message, error)`: push `{message, error: error.message,
timestamp}` onto `syncStats.errors`. -/
def logErrorStats (now : String) (stats : SyncStats) (message error : String) : SyncStats :=
  { stats with errors := stats.errors ++ [⟨message, error, now⟩] }

/-- `syncMapping(mapping)` with the try-block body abstracted: a thrown
exception is caught at the mapping boundary, logged into the stats, and
converted to `false`; paginated tables go through
`syncMappingWithPagination`, whose catch clause logs a different message. -/
def syncMapping (now : String) (stats : SyncStats) (m : Mapping)
    (body : Except String Unit) : Bool × SyncStats :=
  if requiresPagination m.table then
    match body with
    | .ok _ => (true, stats)
    | .error e =>
        (false, logErrorStats now stats
          ("Failed to sync " ++ m.name ++ " to " ++ m.table ++ " during pagination") e)
  else
    match body with
    | .ok _ => (true, stats)
    | .error e =>
        (false, logErrorStats now stats ("Failed to sync " ++ m.name ++ " to " ++ m.table) e)

/-- `runSync()`: stamp `startTime` and `totalMappings`, validate
connections (`validation = some e` models the failure logged by
`validateConnections`, which aborts before any mapping), then fold
`syncMapping` over the catalog, counting successes and failures. -/
def runSync (now : String) (mappings : List Mapping) (validation : Option String)
    (bodies : List (Except String Unit)) : SyncStats :=
  let s0 : SyncStats := ⟨some now, none, mappings.length, 0, 0, []⟩
  match validation with
  | some e => logErrorStats now s0 "Connection validation failed" e
  | none =>
      let s1 := (mappings.zip bodies).foldl (fun st mb =>
        let r := syncMapping now st mb.1 mb.2
        if r.1 then { r.2 with successfulSyncs := r.2.successfulSyncs + 1 }
        else { r.2 with failedSyncs := r.2.failedSyncs + 1 }) s0
      { s1 with endTime := some now }

end SyncManager


/-! ## Generic result predicate -/

/-- `true` iff an `Except` result is a success (no exception thrown). -/
def isOkResult : Except ε α → Bool
  | .ok _ => true
  | .error _ => false

/-! ## Helper lemmas -/

theorem mapWithIndex_get? (f : Nat → α → β) (n i : Nat) (l : List α) :
    (mapWithIndex f n l).get? i = (l.get? i).map (f (n + i)) := by
  induction l generalizing n i with
  | nil => simp [mapWithIndex]
  | cons a as ih =>
      cases i with
      | zero => simp [mapWithIndex]
      | succ j =>
          show (mapWithIndex f (n + 1) as).get? j = (as.get? j).map (f (n + (j + 1)))
          rw [show n + (j + 1) = (n + 1) + j by omega]
          exact ih (n + 1) j

theorem mem_mapWithIndex {f : Nat → α → β} {n : Nat} {l : List α} {b : β}
    (h : b ∈ mapWithIndex f n l) : ∃ i a, a ∈ l ∧ b = f i a := by
  induction l generalizing n with
  | nil => simp [mapWithIndex] at h
  | cons x xs ih =>
      simp only [mapWithIndex, List.mem_cons] at h
      rcases h with h | h
      · exact ⟨n, x, List.mem_cons_self x xs, h⟩
      · rcases ih h with ⟨i, a, ha, hb⟩
        exact ⟨i, a, List.mem_cons_of_mem x ha, hb⟩

theorem lookup_setField_self (row : TypedRow) (k : String) (v : JsValue) :
    (setField row k v).lookup k = some v := by
  induction row with
  | nil => simp [setField, List.lookup]
  | cons p rest ih =>
      obtain ⟨k', v'⟩ := p
      by_cases h : k' = k
      · simp [setField, h, List.lookup]
      · have hb : (k == k') = false := by simpa using Ne.symm h
        simp [setField, h, List.lookup, hb, ih]

/-- The lengths of the chunks depend only on the number of rows. -/
def chunkSizes (n : Nat) : List Nat :=
  if h : n = 0 then [] else min 500 n :: chunkSizes (n - 500)
termination_by n
decreasing_by exact Nat.sub_lt (Nat.pos_of_ne_zero h) (by decide)

theorem chunksOf_flatten (l : List α) : (chunksOf l).flatten = l := by
  suffices H : ∀ n (l : List α), l.length ≤ n → (chunksOf l).flatten = l from
    H l.length l le_rfl
  intro n
  induction n with
  | zero =>
      intro l hl
      have : l = [] := by cases l <;> simp_all
      simp [this, chunksOf]
  | succ n ih =>
      intro l hl
      rw [chunksOf]
      split
      · next h => simp [List.isEmpty_iff.mp h]
      · next h =>
          have hne : l ≠ [] := by simpa [List.isEmpty_iff] using h
          have hpos : 0 < l.length := List.length_pos.mpr hne
          rw [List.flatten_cons, ih (l.drop 500) (by simp only [List.length_drop]; omega),
            List.take_append_drop]

theorem chunksOf_length_le (l : List α) : ∀ c ∈ chunksOf l, c.length ≤ 500 := by
  suffices H : ∀ n (l : List α), l.length ≤ n → ∀ c ∈ chunksOf l, c.length ≤ 500 from
    H l.length l le_rfl
  intro n
  induction n with
  | zero =>
      intro l hl c hc
      have : l = [] := by cases l <;> simp_all
      simp [this, chunksOf] at hc
  | succ n ih =>
      intro l hl c hc
      rw [chunksOf] at hc
      split at hc
      · simp at hc
      · next h =>
          have hne : l ≠ [] := by simpa [List.isEmpty_iff] using h
          have hpos : 0 < l.length := List.length_pos.mpr hne
          simp only [List.mem_cons] at hc
          rcases hc with rfl | hc
          · simpa [List.length_take] using Nat.min_le_left 500 l.length
          · exact ih (l.drop 500) (by simp only [List.length_drop]; omega) c hc

theorem map_length_chunksOf (l : List α) :
    (chunksOf l).map List.length = chunkSizes l.length := by
  suffices H : ∀ n (l : List α), l.length ≤ n →
      (chunksOf l).map List.length = chunkSizes l.length from H l.length l le_rfl
  intro n
  induction n with
  | zero =>
      intro l hl
      have : l = [] := by cases l <;> simp_all
      simp [this, chunksOf, chunkSizes]
  | succ n ih =>
      intro l hl
      rw [chunksOf, chunkSizes]
      split
      · next h =>
          have : l = [] := List.isEmpty_iff.mp h
          simp [this]
      · next h =>
          have hne : l ≠ [] := by simpa [List.isEmpty_iff] using h
          have hpos : 0 < l.length := List.length_pos.mpr hne
          have hlen : l.length ≠ 0 := by omega
          rw [dif_neg hlen, List.map_cons, ih (l.drop 500) (by simp only [List.length_drop]; omega),
            List.length_take, List.length_drop]

theorem runChunks_all_ok (store : Nat → List ρ → Except StoreError (List ρ))
    (wrap : StoreError → String) (cs : List (List ρ)) (n : Nat)
    (h : ∀ i c, i < cs.length → isOkResult (store (n + i) c) = true) :
    (runChunks store wrap cs n).calls = cs ∧
      (runChunks store wrap cs n).committed = cs ∧
      (runChunks store wrap cs n).thrown = none := by
  induction cs generalizing n with
  | nil => simp [runChunks]
  | cons c rest ih =>
      have h0 := h 0 c (by simp)
      cases hs : store n c with
      | error e => rw [Nat.add_zero, hs] at h0; simp [isOkResult] at h0
      | ok d =>
          have ih' := ih (n + 1) (fun i c hi => by
            rw [show n + 1 + i = n + (i + 1) by omega]
            exact h (i + 1) c (Nat.succ_lt_succ hi))
          simp [runChunks, hs, ih'.1, ih'.2.1, ih'.2.2]

theorem runChunks_first_error (store : Nat → List ρ → Except StoreError (List ρ))
    (wrap : StoreError → String) (cs : List (List ρ)) (n j : Nat) (cj : List ρ) (e : StoreError)
    (hget : cs.get? j = some cj)
    (hok : ∀ i c, i < j → isOkResult (store (n + i) c) = true)
    (herr : store (n + j) cj = .error e) :
    (runChunks store wrap cs n).calls = cs.take (j + 1) ∧
      (runChunks store wrap cs n).committed = cs.take j ∧
      (runChunks store wrap cs n).thrown = some (wrap e) := by
  induction j generalizing cs n with
  | zero =>
      cases cs with
      | nil => simp at hget
      | cons c rest =>
          have hc : c = cj := by simpa using hget
          subst hc
          rw [Nat.add_zero] at herr
          simp [runChunks, herr]
  | succ j ih =>
      cases cs with
      | nil => simp at hget
      | cons c rest =>
          have h0 := hok 0 c (Nat.succ_pos j)
          cases hs : store n c with
          | error e' => rw [Nat.add_zero, hs] at h0; simp [isOkResult] at h0
          | ok d =>
              have herr' : store ((n + 1) + j) cj = .error e := by
                rw [show n + 1 + j = n + (j + 1) by omega]
                exact herr
              have ih' := ih rest (n + 1) (by simpa using hget)
                (fun i c hi => by
                  rw [show n + 1 + i = n + (i + 1) by omega]
                  exact hok (i + 1) c (Nat.succ_lt_succ hi)) herr'
              simp [runChunks, hs, ih'.1, ih'.2.1, ih'.2.2, List.take_succ_cons]

namespace SyncManager

/-- The error entry that `syncMapping` pushes for a failing mapping
(`none` for a successful one): the paginated path logs
`... during pagination`, the bulk path logs the plain message. -/
def mappingErrorEntry (now : String) (mb : Mapping × Except String Unit) :
    Option SyncErrorEntry :=
  match mb.2 with
  | .ok _ => none
  | .error e =>
      if requiresPagination mb.1.table then
        some ⟨"Failed to sync " ++ mb.1.name ++ " to " ++ mb.1.table ++ " during pagination",
          e, now⟩
      else some ⟨"Failed to sync " ++ mb.1.name ++ " to " ++ mb.1.table, e, now⟩

theorem syncFold_spec (now : String) (l : List (Mapping × Except String Unit)) (s : SyncStats) :
    (l.foldl (fun st mb =>
        let r := syncMapping now st mb.1 mb.2
        if r.1 then { r.2 with successfulSyncs := r.2.successfulSyncs + 1 }
        else { r.2 with failedSyncs := r.2.failedSyncs + 1 }) s) =
      { s with
        successfulSyncs := s.successfulSyncs + (l.filter (fun mb => isOkResult mb.2)).length,
        failedSyncs := s.failedSyncs + (l.filter (fun mb => !isOkResult mb.2)).length,
        errors := s.errors ++ l.filterMap (mappingErrorEntry now) } := by
  induction l generalizing s with
  | nil => simp
  | cons mb rest ih =>
      obtain ⟨m, b⟩ := mb
      cases b with
      | ok u =>
          cases u
          rw [List.foldl_cons, ih]
          by_cases hp : requiresPagination m.table <;>
            simp [syncMapping, hp, mappingErrorEntry, isOkResult, Nat.add_assoc, Nat.add_comm,
              Nat.add_left_comm]
      | error e =>
          rw [List.foldl_cons, ih]
          by_cases hp : requiresPagination m.table <;>
            simp [syncMapping, hp, mappingErrorEntry, isOkResult, logErrorStats,
              Nat.add_assoc, Nat.add_comm, Nat.add_left_comm]

theorem errorEntries_length (now : String) (l : List (Mapping × Except String Unit)) :
    (l.filterMap (mappingErrorEntry now)).length =
      (l.filter (fun mb => !isOkResult mb.2)).length := by
  induction l with
  | nil => simp
  | cons mb rest ih =>
      obtain ⟨m, b⟩ := mb
      cases b with
      | ok u => simp [mappingErrorEntry, isOkResult, ih]
      | error e =>
          by_cases hp : requiresPagination m.table <;>
            simp [mappingErrorEntry, isOkResult, hp, ih]

end SyncManager

namespace NetSuiteClient

theorem fetchAllGo_spec (pages : Nat → NsPage ρ) (k : Nat) :
    ∀ (fuel page : Nat) (acc : List ρ) (reqs : List Nat),
      (∀ i, i < k → (pages (page + i)).hasMore = true) →
      (pages (page + k)).hasMore = false →
      k < fuel →
      fetchAllGo pages fuel page acc reqs =
        some (acc ++ ((List.range (k + 1)).map (fun i => (pages (page + i)).data)).flatten,
          reqs ++ (List.range (k + 1)).map (fun i => page + i)) := by
  induction k with
  | zero =>
      intro fuel page acc reqs hmore hlast hfuel
      cases fuel with
      | zero => omega
      | succ fuel =>
          rw [Nat.add_zero] at hlast
          simp [fetchAllGo, hlast, List.range_succ]
  | succ k ih =>
      intro fuel page acc reqs hmore hlast hfuel
      cases fuel with
      | zero => omega
      | succ fuel =>
          have h0 : (pages page).hasMore = true := by
            have := hmore 0 (Nat.succ_pos k)
            rwa [Nat.add_zero] at this
          have hmore' : ∀ i, i < k → (pages ((page + 1) + i)).hasMore = true := fun i hi => by
            rw [show page + 1 + i = page + (i + 1) by omega]
            exact hmore (i + 1) (Nat.succ_lt_succ hi)
          have hlast' : (pages ((page + 1) + k)).hasMore = false := by
            rw [show page + 1 + k = page + (k + 1) by omega]
            exact hlast
          have := ih fuel (page + 1) (acc ++ (pages page).data) (reqs ++ [page])
            hmore' hlast' (by omega)
          have hdata : (pages page).data ++
              (List.map (fun i => (pages (page + 1 + i)).data) (List.range (k + 1))).flatten =
              (List.map (fun i => (pages (page + i)).data) (List.range (k + 1 + 1))).flatten := by
            conv_rhs => rw [List.range_succ_eq_map]
            simp only [List.map_cons, List.flatten_cons, Nat.add_zero, List.map_map]
            congr 2
            apply List.map_congr_left
            intro i hi
            simp only [Function.comp_apply]
            congr 2
            omega
          have hreqs : page :: List.map (fun i => page + 1 + i) (List.range (k + 1)) =
              List.map (fun i => page + i) (List.range (k + 1 + 1)) := by
            conv_rhs => rw [List.range_succ_eq_map]
            simp only [List.map_cons, Nat.add_zero, List.map_map]
            congr 1
            apply List.map_congr_left
            intro i hi
            simp only [Function.comp_apply]
            omega
          rw [show fetchAllGo pages (fuel + 1) page acc reqs =
              fetchAllGo pages fuel (page + 1) (acc ++ (pages page).data) (reqs ++ [page]) by
            simp [fetchAllGo, h0]]
          rw [this, List.append_assoc acc, hdata, List.append_assoc reqs,
            List.singleton_append, hreqs]

end NetSuiteClient

/-! ## Claim theorems -/

/-- C7: numeric coercion: `parseNumber` (asFloat) maps `"1,234.50"` to
`1234.50` and `""` to null; `parseId` (asInteger) maps `"007"` to `7` and
null to null. -/
theorem C7_numeric_coercions :
    SyncManager.parseNumber (some "1,234.50") = some (1234.50 : ℚ) ∧
    SyncManager.parseNumber (some "") = none ∧
    SyncManager.parseId (some "007") = some 7 ∧
    SyncManager.parseId none = none := by
  refine ⟨?_, by decide, by decide, rfl⟩
  have h : SyncManager.parseNumber (some "1,234.50") = some (mkRat 2469 2) := by decide
  rw [h, Rat.mkRat_eq_div]
  norm_num

/-- The concrete raw row used for the zero-id normalization instance:
`customer_internal_id = "0"`, all other fields absent. -/
def zeroIdRawRow : RawRow :=
  ⟨["customer_internal_id"], fun k => if k = "customer_internal_id" then some "0" else none⟩

/-- C10: any value parsing to the number zero is collapsed to null by both
coercions (the `|| null` makes `0` falsy), in particular `"0"` and
`"0.00"`; consequently a `customers` row with internal id `"0"` receives
the synthetic `rowIndex + 1` identifier. -/
theorem C10_zero_collapses_to_null :
    (∀ s : String, parseFloatChars (s.toList.filter (fun c => c ≠ ',')) = some 0 →
        SyncManager.parseNumber (some s) = none) ∧
    (∀ s : String, parseIntChars s.toList = some 0 →
        SyncManager.parseId (some s) = none) ∧
    SyncManager.parseNumber (some "0") = none ∧
    SyncManager.parseNumber (some "0.00") = none ∧
    SyncManager.parseId (some "0") = none ∧
    (∀ now : String,
      (SyncManager.processRecordsForTable "customers" now [zeroIdRawRow]).map
        (fun r => r.lookup "customer_internal_id") = [some (JsValue.vint 1)]) := by
  refine ⟨?_, ?_, by decide, by decide, by decide, fun now => rfl⟩
  · intro s h
    by_cases hs : s = ""
    · subst hs
      exact absurd h (by decide)
    · have hu : SyncManager.parseNumber (some s) =
          if s = "" then none
          else orNullNum (parseFloatChars (s.toList.filter (fun c => c ≠ ','))) := rfl
      rw [hu, if_neg hs, h]
      rfl
  · intro s h
    by_cases hs : s = ""
    · subst hs
      exact absurd h (by decide)
    · have hu : SyncManager.parseId (some s) =
          if s = "" then none else orNullInt (parseIntChars s.toList) := rfl
      rw [hu, if_neg hs, h]
      rfl

/-- Closed instance discharging the hypotheses of
`C10_zero_collapses_to_null` at `s = "0"`. -/
theorem C10_zero_collapses_witness :
    parseFloatChars ("0".toList.filter (fun c => c ≠ ',')) = some 0 ∧
    SyncManager.parseNumber (some "0") = none ∧
    parseIntChars "0".toList = some 0 ∧
    SyncManager.parseId (some "0") = none :=
  ⟨by decide, C10_zero_collapses_to_null.1 "0" (by decide), by decide,
    C10_zero_collapses_to_null.2.1 "0" (by decide)⟩

/-- The tables of the static conflict-key map. -/
def knownTables : List String :=
  ["cash_sales", "credit_memos", "customers", "invoices", "invoices_detailed",
   "item_fulfillments", "item_fulfillments_detailed", "partners", "sales_orders",
   "sales_orders_detailed", "forecast"]

/-- C8: conflict-column selection is the same pure function of the table
name in both paths; the three detail tables resolve to `pkey`, each other
known table to its static identifier column (`forecast` to `pkey`),
unknown tables to `id`, and the resolved value is never empty. -/
theorem C8_conflict_column_policy :
    (∀ t, SyncManager.conflictKeyPaginated t = SyncManager.conflictKeyBulk t) ∧
    (∀ t, t ∉ knownTables → SyncManager.conflictKeyBulk t = "id") ∧
    (∀ t, SyncManager.conflictKeyBulk t ≠ "") ∧
    SyncManager.conflictKeyBulk "invoices_detailed" = "pkey" ∧
    SyncManager.conflictKeyBulk "item_fulfillments_detailed" = "pkey" ∧
    SyncManager.conflictKeyBulk "sales_orders_detailed" = "pkey" ∧
    SyncManager.conflictKeyBulk "cash_sales" = "cash_sale_internal_id" ∧
    SyncManager.conflictKeyBulk "credit_memos" = "credit_memo_internal_id" ∧
    SyncManager.conflictKeyBulk "customers" = "customer_internal_id" ∧
    SyncManager.conflictKeyBulk "invoices" = "invoice_internal_id" ∧
    SyncManager.conflictKeyBulk "item_fulfillments" = "item_fulfillment_internal_id" ∧
    SyncManager.conflictKeyBulk "partners" = "partner_internal_id" ∧
    SyncManager.conflictKeyBulk "sales_orders" = "sales_order_internal_id" ∧
    SyncManager.conflictKeyBulk "forecast" = "pkey" := by
  refine ⟨fun t => rfl, ?_, ?_, by decide, by decide, by decide, by decide, by decide,
    by decide, by decide, by decide, by decide, by decide, by decide⟩
  · intro t ht
    simp only [knownTables, List.mem_cons, List.not_mem_nil, or_false, not_or] at ht
    rw [SyncManager.conflictKeyBulk, if_neg (by simp_all)]
    unfold SyncManager.getTableIdColumn
    split <;> simp_all
  · intro t
    rw [SyncManager.conflictKeyBulk]
    split
    · decide
    · unfold SyncManager.getTableIdColumn
      split <;> decide

/-- Closed instance discharging the unknown-table hypothesis of
`C8_conflict_column_policy` at `t = "widgets"`. -/
theorem C8_conflict_column_witness :
    "widgets" ∉ knownTables ∧ SyncManager.conflictKeyBulk "widgets" = "id" :=
  ⟨by decide, C8_conflict_column_policy.2.1 "widgets" (by decide)⟩

/-- C3: `fetchAllSavedSearchPages` starts at page index 0, issues exactly
one request per page in order (`List.range (k+1) = [0, ..., k]`), stops
with the first page whose `hasMore` is false, and returns the
concatenation of the pages' `data` arrays in page order. -/
theorem C3_fetchAllPages_pagination {ρ : Type} (pages : Nat → NsPage ρ) (k fuel : Nat)
    (hmore : ∀ i, i < k → (pages i).hasMore = true)
    (hlast : (pages k).hasMore = false)
    (hfuel : k < fuel) :
    NetSuiteClient.fetchAllSavedSearchPages pages fuel =
      some (((List.range (k + 1)).map (fun i => (pages i).data)).flatten,
        List.range (k + 1)) ∧
    (List.range (k + 1)).length = k + 1 := by
  have h := NetSuiteClient.fetchAllGo_spec pages k fuel 0 [] []
    (fun i hi => by simpa using hmore i hi) (by simpa using hlast) hfuel
  refine ⟨?_, by simp⟩
  rw [NetSuiteClient.fetchAllSavedSearchPages, h]
  simp

/-- A concrete three-page sequence: pages 0 and 1 have `hasMore = true`,
page 2 is final. -/
def demoPages : Nat → NsPage Nat := fun i => if i < 2 then ⟨[i], true⟩ else ⟨[7], false⟩

/-- Closed instance discharging the hypotheses of
`C3_fetchAllPages_pagination`: three pages, exactly 3 requests
(`[0, 1, 2]`), rows concatenated in order. -/
theorem C3_fetchAllPages_witness :
    (demoPages 2).hasMore = false ∧
    NetSuiteClient.fetchAllSavedSearchPages demoPages 9 = some ([0, 1, 7], [0, 1, 2]) := by
  refine ⟨by decide, ?_⟩
  have h := (C3_fetchAllPages_pagination demoPages 2 9 (by decide) (by decide) (by decide)).1
  rw [h]
  decide

/-- C1: for any catalog and any run whose connection validation succeeds,
an exception in one mapping's sync path yields exactly one appended error
entry and one failed count for that mapping, the loop reaches every
mapping, and successes and failures partition the catalog. -/
theorem C1_mapping_isolation (now : String) (mappings : List SyncManager.Mapping)
    (bodies : List (Except String Unit)) (hlen : bodies.length = mappings.length) :
    (SyncManager.runSync now mappings none bodies).totalMappings = mappings.length ∧
    (SyncManager.runSync now mappings none bodies).successfulSyncs =
      ((mappings.zip bodies).filter (fun mb => isOkResult mb.2)).length ∧
    (SyncManager.runSync now mappings none bodies).failedSyncs =
      ((mappings.zip bodies).filter (fun mb => !isOkResult mb.2)).length ∧
    (SyncManager.runSync now mappings none bodies).errors =
      (mappings.zip bodies).filterMap (SyncManager.mappingErrorEntry now) ∧
    (SyncManager.runSync now mappings none bodies).errors.length =
      (SyncManager.runSync now mappings none bodies).failedSyncs := by
  have hrun : SyncManager.runSync now mappings none bodies =
      { startTime := some now, endTime := some now,
        totalMappings := mappings.length,
        successfulSyncs :=
          0 + ((mappings.zip bodies).filter (fun mb => isOkResult mb.2)).length,
        failedSyncs :=
          0 + ((mappings.zip bodies).filter (fun mb => !isOkResult mb.2)).length,
        errors := [] ++ (mappings.zip bodies).filterMap (SyncManager.mappingErrorEntry now) } := by
    simp only [SyncManager.runSync]
    rw [SyncManager.syncFold_spec]
  rw [hrun]
  refine ⟨rfl, by simp, by simp, by simp, ?_⟩
  simp [SyncManager.errorEntries_length]

/-- A concrete catalog of three mappings. -/
def demoMappings : List SyncManager.Mapping :=
  [⟨"101", "customers", "Customers", "savedSearch"⟩,
   ⟨"102", "invoices", "Invoices", "savedSearch"⟩,
   ⟨"103", "partners", "Partners", "savedSearch"⟩]

/-- Sync-path outcomes in which only mapping #2's fetch throws. -/
def demoBodies : List (Except String Unit) :=
  [.ok (), .error "NetSuite API Error: 500 - Internal Server Error", .ok ()]

/-- Closed instance discharging the hypotheses of `C1_mapping_isolation`:
3 mappings, only #2 throws, giving totalMappings 3, successfulSyncs 2,
failedSyncs 1, and exactly one error entry. -/
theorem C1_mapping_isolation_witness :
    demoBodies.length = demoMappings.length ∧
    (SyncManager.runSync "T0" demoMappings none demoBodies).totalMappings = 3 ∧
    (SyncManager.runSync "T0" demoMappings none demoBodies).successfulSyncs = 2 ∧
    (SyncManager.runSync "T0" demoMappings none demoBodies).failedSyncs = 1 ∧
    (SyncManager.runSync "T0" demoMappings none demoBodies).errors.length = 1 := by
  obtain ⟨h1, h2, h3, h4, h5⟩ := C1_mapping_isolation "T0" demoMappings demoBodies rfl
  exact ⟨rfl, h1, h2.trans (by decide), h3.trans (by decide),
    h5.trans (h3.trans (by decide))⟩

/-- Unfolding of the lambda client's `upsert` when all validations pass:
it reduces to the chunk loop over `chunksOf rows`. -/
theorem LambdaClient.upsert_valid {ρ : Type} (store : Nat → List ρ → Except StoreError (List ρ))
    (table onConflict : String) (rows : List ρ)
    (htable : LambdaClient.isValidTableName table = true)
    (hconf : LambdaClient.isValidConflictColumn onConflict = true)
    (hrows : rows ≠ []) :
    LambdaClient.upsert store table (.arr rows) onConflict =
      (match (runChunks store LambdaClient.wrapChunkError (chunksOf rows) 0).thrown with
       | some msg =>
          ⟨(runChunks store LambdaClient.wrapChunkError (chunksOf rows) 0).calls,
            (runChunks store LambdaClient.wrapChunkError (chunksOf rows) 0).committed,
            .error ("Failed to upsert to table " ++ table ++ ": " ++ msg)⟩
       | none =>
          ⟨(runChunks store LambdaClient.wrapChunkError (chunksOf rows) 0).calls,
            (runChunks store LambdaClient.wrapChunkError (chunksOf rows) 0).committed,
            .ok (.completed rows.length
              (runChunks store LambdaClient.wrapChunkError (chunksOf rows) 0).results.length)⟩) := by
  have hne : rows.isEmpty = false := by simpa [List.isEmpty_iff] using hrows
  simp only [LambdaClient.upsert, htable, hne, hconf, Bool.not_true, Bool.and_false,
    if_false, ite_false]
  rfl

theorem chunkSizes_zero : chunkSizes 0 = [] := by
  rw [chunkSizes]
  simp

theorem chunkSizes_1200 : chunkSizes 1200 = [500, 500, 200] := by
  rw [chunkSizes]
  norm_num
  rw [chunkSizes]
  norm_num
  rw [chunkSizes]
  norm_num
  exact chunkSizes_zero

theorem chunksOf_nil : chunksOf ([] : List α) = [] := by
  rw [chunksOf]
  simp

theorem chunksOf_singleton (a : α) : chunksOf [a] = [[a]] := by
  rw [chunksOf]
  simp [chunksOf_nil]

theorem chunksOf_rows1200 :
    chunksOf (List.replicate 1200 ()) =
      [List.replicate 500 (), List.replicate 500 (), List.replicate 200 ()] := by
  rw [chunksOf]
  rw [dif_neg (by simp)]
  rw [List.take_replicate, List.drop_replicate]
  norm_num
  rw [chunksOf]
  rw [dif_neg (by simp)]
  rw [List.take_replicate, List.drop_replicate]
  norm_num
  rw [chunksOf]
  rw [dif_neg (by simp)]
  rw [List.take_replicate, List.drop_replicate]
  norm_num
  rw [chunksOf]
  simp

/-- C2: `upsert` splits a non-empty row list into consecutive chunks of at
most 500 in order, issues one store call per chunk sequentially, aborts at
the first chunk failure with the wrapped write error while earlier chunks
stay committed and later chunks are never attempted; 1200 rows produce
exactly the chunk sizes 500, 500, 200. -/
theorem C2_upsert_chunking {ρ : Type} (store : Nat → List ρ → Except StoreError (List ρ))
    (table onConflict : String) (rows : List ρ)
    (htable : LambdaClient.isValidTableName table = true)
    (hconf : LambdaClient.isValidConflictColumn onConflict = true)
    (hrows : rows ≠ []) :
    ((chunksOf rows).flatten = rows ∧ (∀ c ∈ chunksOf rows, c.length ≤ 500) ∧
      (chunksOf rows).map List.length = chunkSizes rows.length) ∧
    ((∀ i c, i < (chunksOf rows).length → isOkResult (store i c) = true) →
      (LambdaClient.upsert store table (.arr rows) onConflict).calls = chunksOf rows ∧
      (LambdaClient.upsert store table (.arr rows) onConflict).committed = chunksOf rows ∧
      isOkResult (LambdaClient.upsert store table (.arr rows) onConflict).result = true) ∧
    (∀ j cj e, (chunksOf rows).get? j = some cj →
      (∀ i c, i < j → isOkResult (store i c) = true) →
      store j cj = .error e →
      (LambdaClient.upsert store table (.arr rows) onConflict).calls =
        (chunksOf rows).take (j + 1) ∧
      (LambdaClient.upsert store table (.arr rows) onConflict).committed =
        (chunksOf rows).take j ∧
      (LambdaClient.upsert store table (.arr rows) onConflict).result =
        .error ("Failed to upsert to table " ++ table ++ ": " ++
          ("Supabase upsert error: " ++ e.message))) ∧
    (rows.length = 1200 → (chunksOf rows).map List.length = [500, 500, 200]) := by
  refine ⟨⟨chunksOf_flatten rows, chunksOf_length_le rows, map_length_chunksOf rows⟩, ?_, ?_, ?_⟩
  · intro hall
    have hrc := runChunks_all_ok store LambdaClient.wrapChunkError (chunksOf rows) 0
      (fun i c hi => by simpa using hall i c hi)
    rw [LambdaClient.upsert_valid store table onConflict rows htable hconf hrows, hrc.2.2]
    exact ⟨hrc.1, hrc.2.1, rfl⟩
  · intro j cj e hget hok herr
    have hrc := runChunks_first_error store LambdaClient.wrapChunkError (chunksOf rows) 0 j cj e
      hget (fun i c hi => by simpa using hok i c hi) (by simpa using herr)
    rw [LambdaClient.upsert_valid store table onConflict rows htable hconf hrows, hrc.2.2]
    exact ⟨hrc.1, hrc.2.1, rfl⟩
  · intro h1200
    rw [map_length_chunksOf, h1200, chunkSizes_1200]

/-- The 1200-row batch used as the concrete chunking instance. -/
def rows1200 : List Unit := List.replicate 1200 ()

/-- A store that fails exactly on its second call (0-based call index 1). -/
def storeFail2 : Nat → List Unit → Except StoreError (List Unit) :=
  fun i _ => if i = 1 then .error ⟨"boom", none⟩ else .ok []

/-- Closed instance discharging the hypotheses of `C2_upsert_chunking`:
1200 rows chunk as 500/500/200; a failure on the 2nd store call leaves the
1st chunk committed, never attempts the 3rd, and surfaces the wrapped
write error. -/
theorem C2_upsert_chunking_witness :
    LambdaClient.isValidTableName "customers" = true ∧
    LambdaClient.isValidConflictColumn "customer_internal_id" = true ∧
    rows1200 ≠ [] ∧
    (chunksOf rows1200).map List.length = [500, 500, 200] ∧
    (LambdaClient.upsert storeFail2 "customers" (.arr rows1200) "customer_internal_id").calls =
      (chunksOf rows1200).take 2 ∧
    (LambdaClient.upsert storeFail2 "customers" (.arr rows1200) "customer_internal_id").committed =
      (chunksOf rows1200).take 1 ∧
    (LambdaClient.upsert storeFail2 "customers" (.arr rows1200) "customer_internal_id").result =
      .error "Failed to upsert to table customers: Supabase upsert error: boom" := by
  have hlen : rows1200.length = 1200 := List.length_replicate 1200 ()
  have hrows : rows1200 ≠ [] := by
    intro h
    rw [h] at hlen
    exact absurd hlen (by decide)
  have hchunks : chunksOf rows1200 =
      [List.replicate 500 (), List.replicate 500 (), List.replicate 200 ()] :=
    chunksOf_rows1200
  have h := C2_upsert_chunking storeFail2 "customers" "customer_internal_id" rows1200
    (by decide) (by decide) hrows
  have hfail := h.2.2.1 1 (List.replicate 500 ()) ⟨"boom", none⟩
    (by rw [hchunks]; rfl)
    (fun i c hi => by
      have : i = 0 := by omega
      subst this
      rfl)
    (by rfl)
  exact ⟨by decide, by decide, hrows, h.2.2.2 hlen, hfail.1, hfail.2.1, hfail.2.2⟩

/-- A store that accepts every chunk, used for concrete instances. -/
def storeAllOk : Nat → List Unit → Except StoreError (List Unit) := fun _ _ => .ok []

/-- C5 counterexample: in the lambda client an empty row list does NOT
fail: `upsert("customers", [], "id")` returns the `{count: 0}` success and
issues no store call, contradicting the claimed `ValidationError`. -/
theorem C5_empty_rows_counterexample :
    (LambdaClient.upsert storeAllOk "customers" (.arr ([] : List Unit)) "id").result =
      .ok .emptyCount ∧
    (LambdaClient.upsert storeAllOk "customers" (.arr ([] : List Unit)) "id").calls = [] ∧
    isOkResult
      (LambdaClient.upsert storeAllOk "customers" (.arr ([] : List Unit)) "id").result =
      true :=
  ⟨rfl, rfl, rfl⟩

/-- C5 amended: a non-array argument fails with the validation throw in
both clients and an empty list fails in the src client, with no store
call; the lambda client instead returns a zero-count success for an empty
list, still with no store call. -/
theorem C5_empty_rows_amended {ρ : Type} (store : Nat → List ρ → Except StoreError (List ρ))
    (table onConflict : String) (htable : LambdaClient.isValidTableName table = true) :
    (LambdaClient.upsert store table (.notArray : UpsertArg ρ) onConflict).result =
      .error "Records must be an array" ∧
    (LambdaClient.upsert store table (.notArray : UpsertArg ρ) onConflict).calls = [] ∧
    (LambdaClient.upsert store table (.arr ([] : List ρ)) onConflict).result =
      .ok .emptyCount ∧
    (LambdaClient.upsert store table (.arr ([] : List ρ)) onConflict).calls = [] ∧
    (SrcClient.upsert store table (.notArray : UpsertArg ρ) onConflict).result =
      .error "No records provided for upsert" ∧
    (SrcClient.upsert store table (.notArray : UpsertArg ρ) onConflict).calls = [] ∧
    (SrcClient.upsert store table (.arr ([] : List ρ)) onConflict).result =
      .error "No records provided for upsert" ∧
    (SrcClient.upsert store table (.arr ([] : List ρ)) onConflict).calls = [] := by
  refine ⟨?_, ?_, ?_, ?_, rfl, rfl, rfl, rfl⟩ <;>
    simp [LambdaClient.upsert, htable]

/-- Closed instance discharging the hypothesis of `C5_empty_rows_amended`
at the valid table name `"customers"`. -/
theorem C5_empty_rows_witness :
    LambdaClient.isValidTableName "customers" = true ∧
    (LambdaClient.upsert storeAllOk "customers" (.notArray : UpsertArg Unit) "id").result =
      .error "Records must be an array" ∧
    (SrcClient.upsert storeAllOk "customers" (.arr ([] : List Unit)) "id").result =
      .error "No records provided for upsert" :=
  ⟨by decide, (C5_empty_rows_amended storeAllOk "customers" "id" (by decide)).1,
    (C5_empty_rows_amended storeAllOk "customers" "id" (by decide)).2.2.2.2.2.2.1⟩

/-- C9 counterexample: the src client performs no table-name validation:
`upsert("bad table!", [row], "id")` issues the store call and completes
without any validation error. -/
theorem C9_table_validation_counterexample :
    (SrcClient.upsert storeAllOk "bad table!" (.arr [()]) "id").calls = [[()]] ∧
    (SrcClient.upsert storeAllOk "bad table!" (.arr [()]) "id").result =
      .ok (.completed 1 0) := by
  have hc : chunksOf [()] = [[()]] := chunksOf_singleton ()
  constructor <;> simp [SrcClient.upsert, hc, runChunks, storeAllOk]

/-- C9 amended: in the lambda client a table name failing
`^[a-zA-Z0-9_-]+$` is rejected with `ValidationError` before any store
call, for every records argument; a non-empty conflict column failing
`^[a-zA-Z0-9_\- ]+$` is likewise rejected before any store call when the
rows are a non-empty array.  (The src client performs no such validation,
see the counterexample.) -/
theorem C9_table_validation_amended {ρ : Type}
    (store : Nat → List ρ → Except StoreError (List ρ)) (table onConflict : String) :
    (∀ records : UpsertArg ρ, LambdaClient.isValidTableName table = false →
      (LambdaClient.upsert store table records onConflict).result =
        .error "Invalid table name format" ∧
      (LambdaClient.upsert store table records onConflict).calls = []) ∧
    (∀ rows : List ρ, LambdaClient.isValidTableName table = true → rows ≠ [] →
      onConflict ≠ "" → LambdaClient.isValidConflictColumn onConflict = false →
      (LambdaClient.upsert store table (.arr rows) onConflict).result =
        .error "Invalid conflict column format" ∧
      (LambdaClient.upsert store table (.arr rows) onConflict).calls = []) := by
  constructor
  · intro records hbad
    constructor <;> simp [LambdaClient.upsert, hbad]
  · intro rows htable hrows hconfne hconf
    have hne : rows.isEmpty = false := by simpa [List.isEmpty_iff] using hrows
    constructor <;> simp [LambdaClient.upsert, htable, hne, hconf, hconfne]

/-- Closed instance discharging the hypotheses of
`C9_table_validation_amended` at `"bad table!"` and `"bad col!"`. -/
theorem C9_table_validation_witness :
    LambdaClient.isValidTableName "bad table!" = false ∧
    (LambdaClient.upsert storeAllOk "bad table!" (.arr [()]) "id").result =
      .error "Invalid table name format" ∧
    (LambdaClient.upsert storeAllOk "bad table!" (.arr [()]) "id").calls = [] ∧
    LambdaClient.isValidConflictColumn "bad col!" = false ∧
    (LambdaClient.upsert storeAllOk "customers" (.arr [()]) "bad col!").result =
      .error "Invalid conflict column format" :=
  ⟨by decide,
   ((C9_table_validation_amended storeAllOk "bad table!" "id").1 (.arr [()]) (by decide)).1,
   ((C9_table_validation_amended storeAllOk "bad table!" "id").1 (.arr [()]) (by decide)).2,
   by decide,
   ((C9_table_validation_amended storeAllOk "customers" "bad col!").2 [()] (by decide)
     (by decide) (by decide) (by decide)).1⟩

/-- A raw row with every field absent. -/
def emptyRawRow : RawRow := ⟨[], fun _ => none⟩

/-- C4 counterexample: a `forecast` row produced by the normalizer carries
no `timestamp` field at all (its object literal has none), contradicting
the claim that every table's rows receive one. -/
theorem C4_timestamp_counterexample :
    (SyncManager.processRecordsForTable "forecast" "2026-10-12T00:00:00.000Z"
      [emptyRawRow]).map (fun r => r.lookup "timestamp") = [none] := by
  decide

/-- C4 amended: for every destination table except `forecast`, every row
produced by `processRecordsForTable` carries `timestamp` set to the
normalization wall-clock string `now`. -/
theorem C4_timestamp_amended (table now : String) (rows : List RawRow) (r : TypedRow)
    (ht : table ≠ "forecast")
    (hr : r ∈ SyncManager.processRecordsForTable table now rows) :
    r.lookup "timestamp" = some (JsValue.vstr now) := by
  unfold SyncManager.processRecordsForTable at hr
  split at hr
  case _ => obtain ⟨i, a, ha, rfl⟩ := mem_mapWithIndex hr; rfl
  case _ => obtain ⟨i, a, ha, rfl⟩ := mem_mapWithIndex hr; rfl
  case _ => obtain ⟨i, a, ha, rfl⟩ := mem_mapWithIndex hr; rfl
  case _ => obtain ⟨i, a, ha, rfl⟩ := mem_mapWithIndex hr; rfl
  case _ => obtain ⟨i, a, ha, rfl⟩ := mem_mapWithIndex hr; rfl
  case _ => obtain ⟨i, a, ha, rfl⟩ := mem_mapWithIndex hr; rfl
  case _ => obtain ⟨i, a, ha, rfl⟩ := mem_mapWithIndex hr; rfl
  case _ => obtain ⟨i, a, ha, rfl⟩ := mem_mapWithIndex hr; rfl
  case _ => obtain ⟨i, a, ha, rfl⟩ := mem_mapWithIndex hr; rfl
  case _ => obtain ⟨i, a, ha, rfl⟩ := mem_mapWithIndex hr; rfl
  case _ => exact absurd rfl ht
  case _ =>
      obtain ⟨i, a, ha, rfl⟩ := mem_mapWithIndex hr
      exact lookup_setField_self _ "timestamp" (JsValue.vstr now)

/-- Closed instance discharging the hypotheses of `C4_timestamp_amended`
at the `customers` table. -/
theorem C4_timestamp_witness :
    ("customers" : String) ≠ "forecast" ∧
    (SyncManager.processRecordsForTable "customers" "2026-10-12T00:00:00.000Z"
      [emptyRawRow]).map (fun r => r.lookup "timestamp") =
      [some (JsValue.vstr "2026-10-12T00:00:00.000Z")] := by
  refine ⟨by decide, ?_⟩
  have h := C4_timestamp_amended "customers" "2026-10-12T00:00:00.000Z" [emptyRawRow] _
    (by decide) (List.mem_cons_self _ _)
  exact congrArg (fun v => [v]) h

/-- The raw row of the concrete detail-key instance: parent internal id
`"55"`, no `pkey`, no `line_id`. -/
def row55 : RawRow :=
  ⟨["invoice_internal_id"], fun k => if k = "invoice_internal_id" then some "55" else none⟩

/-- Padding plus `row55` at 0-based index 4. -/
def rows5 : List RawRow := [emptyRawRow, emptyRawRow, emptyRawRow, emptyRawRow, row55]

/-- C6: in each detail table, a raw row supplying neither `pkey` nor
`line_id` gets the synthetic
`pkey = "{parseId(parent) || rowIndex+1}_{rowIndex+1}"` — the parent
internal id when present, `rowIndex+1` for it too when absent. -/
theorem C6_detail_synthetic_pkey (now : String) (rows : List RawRow) (idx : Nat) (r : RawRow)
    (hr : rows.get? idx = some r)
    (hpk : SyncManager.parseId (r.get "pkey") = none)
    (hline : SyncManager.parseId (r.get "line_id") = none) :
    (∀ row, (SyncManager.processRecordsForTable "invoices_detailed" now rows).get? idx =
        some row →
      row.lookup "pkey" = some (JsValue.vstr
        (toString ((SyncManager.parseId (r.get "invoice_internal_id")).getD
            (Int.ofNat (idx + 1))) ++ "_" ++ toString (Int.ofNat (idx + 1))))) ∧
    (∀ row, (SyncManager.processRecordsForTable "item_fulfillments_detailed" now rows).get? idx =
        some row →
      row.lookup "pkey" = some (JsValue.vstr
        (toString ((SyncManager.parseId (r.get "item_fulfillment_internal_id")).getD
            (Int.ofNat (idx + 1))) ++ "_" ++ toString (Int.ofNat (idx + 1))))) ∧
    (∀ row, (SyncManager.processRecordsForTable "sales_orders_detailed" now rows).get? idx =
        some row →
      row.lookup "pkey" = some (JsValue.vstr
        (toString ((SyncManager.parseId (r.get "sales_order_internal_id")).getD
            (Int.ofNat (idx + 1))) ++ "_" ++ toString (Int.ofNat (idx + 1))))) := by
  refine ⟨?_, ?_, ?_⟩ <;> (
    intro row hrow
    simp only [SyncManager.processRecordsForTable] at hrow
    rw [mapWithIndex_get?, hr] at hrow
    simp only [Nat.zero_add, Option.map_some'] at hrow
    injection hrow with hrow
    subst hrow)
  · show some (SyncManager.detailPkey r "invoice_internal_id" idx) = _
    simp only [SyncManager.detailPkey, hpk, hline, Option.getD_none]
  · show some (SyncManager.detailPkey r "item_fulfillment_internal_id" idx) = _
    simp only [SyncManager.detailPkey, hpk, hline, Option.getD_none]
  · show some (SyncManager.detailPkey r "sales_order_internal_id" idx) = _
    simp only [SyncManager.detailPkey, hpk, hline, Option.getD_none]

/-- Closed instance discharging the hypotheses of
`C6_detail_synthetic_pkey`: a detail row at 0-based index 4 with parent id
`"55"` and neither `pkey` nor `line_id` normalizes to `pkey = "55_5"`. -/
theorem C6_detail_synthetic_pkey_witness :
    rows5.get? 4 = some row55 ∧
    SyncManager.parseId (row55.get "pkey") = none ∧
    SyncManager.parseId (row55.get "line_id") = none ∧
    ((SyncManager.processRecordsForTable "invoices_detailed" "T0" rows5).get? 4).map
      (fun row => row.lookup "pkey") = some (some (JsValue.vstr "55_5")) := by
  refine ⟨rfl, rfl, rfl, ?_⟩
  have h := (C6_detail_synthetic_pkey "T0" rows5 4 row55 rfl rfl rfl).1 _ rfl
  exact congrArg some h
